import Mathlib

/-!
Verification development for the Q-InfraTwin TRL4 hybrid prototype
(src/q_infratwin_trl4_hybrid_prototype_v1_1.py).

Modelling conventions (shallow embedding):
* Python floats are modelled as exact rationals (ℚ); Python ints as ℤ/ℕ.
* numpy randomness (`rng.random()`, `rng.normal(...)`, `rng.gamma(...)`) is
  modelled as an explicit stream of rational draws consumed one-by-one in the
  exact order the source consumes them; a call with `size=k` consumes `k`
  consecutive draws.  No claim depends on the distribution of the draws, only
  on how they are consumed and compared.
* Wall-clock time (`time.time()`) is modelled as an explicit stream of
  rational timestamps consumed in source order; `time.sleep` has no effect on
  the model state beyond what the next timestamp says.
* `math`/numpy transcendental kernels that no claim depends on numerically
  (the square root inside `np.std`, `np.tanh` in the bandit update) are
  abstracted as function parameters of the environment; every theorem
  quantifies over them.
* `json.dumps` serialization of the QRE / QuantumResult audit snapshots is
  abstracted as a serialization function parameter; only presence/absence and
  equality of the serialized snapshots matter to the claims.
* The quantum branch's polling loop (`while True:` in `HybridOrchestrator.step`)
  is embedded with explicit fuel; a step returns `none` when the fuel runs out
  (the Python loop would still be spinning) or when the Python code would raise
  (a `KeyError` on a missing dict entry).
-/

set_option maxHeartbeats 1000000
set_option maxRecDepth 100000

/-! ## Streams of draws / timestamps -/

/-- A stream of rational values with a cursor; models both the numpy
pseudo-random generators (sequence of realized draws) and the wall clock
(sequence of `time.time()` observations). -/
structure QStream where
  vals : Nat → ℚ
  idx : Nat
deriving Inhabited

/-- Consume one value from the stream. -/
def QStream.next (s : QStream) : ℚ × QStream :=
  (s.vals s.idx, { s with idx := s.idx + 1 })

/-- Consume `n` consecutive values (models `rng.normal(size=n)`). -/
def QStream.take : Nat → QStream → List ℚ × QStream
  | 0, s => ([], s)
  | n + 1, s =>
    let (x, s1) := s.next
    let (xs, s2) := QStream.take n s1
    (x :: xs, s2)

/-- The wall clock is a stream of `time.time()` observations (seconds). -/
abbrev Clock := QStream

/-! ## Python numeric helpers -/

/-- Python `int(q)` on a float: truncation toward zero. -/
def pyInt (q : ℚ) : ℤ :=
  if 0 ≤ q then q.floor else q.ceil

/-- `np.clip(x, lo, hi)` (for `lo ≤ hi`). -/
def npClip (x lo hi : ℚ) : ℚ :=
  max lo (min x hi)

/-- `np.round` to an integer: round half to even (banker's rounding). -/
def roundHalfEven (q : ℚ) : ℤ :=
  let f := q.floor
  let frac := q - (f : ℚ)
  if frac < 1/2 then f
  else if 1/2 < frac then f + 1
  else if f % 2 = 0 then f else f + 1

/-- `np.isclose(a, b, atol=0.03)` with the default `rtol = 1e-05`. -/
def npIsClose (a b : ℚ) : Bool :=
  decide (|a - b| ≤ 3/100 + |b| / 100000)

/-- Arithmetic mean of a list of rationals (callers guarantee nonempty). -/
def listMean (xs : List ℚ) : ℚ :=
  xs.sum / (xs.length : ℚ)

/-- Dot product of two rational lists (models `w @ phi`). -/
def dotQ (a b : List ℚ) : ℚ :=
  (List.zipWith (· * ·) a b).sum

/-! ## Data contracts (source: "Data contracts (TRL4-ready)") -/

/-- `RiskClass = Literal["CRITICAL", "HIGH", "MEDIUM", "LOW"]` -/
inductive RiskClass
  | CRITICAL | HIGH | MEDIUM | LOW
deriving DecidableEq, Repr

/-- `Route = Literal["CLASSICAL", "QUANTUM", "FALLBACK_CLASSICAL"]` -/
inductive Route
  | CLASSICAL | QUANTUM | FALLBACK_CLASSICAL
deriving DecidableEq, Repr

/-- `JobStatus = Literal["PENDING", "RUNNING", "SUCCEEDED", "FAILED", "CANCELLED"]` -/
inductive JobStatus
  | PENDING | RUNNING | SUCCEEDED | FAILED | CANCELLED
deriving DecidableEq, Repr

/-- `Telemetry.values` dict: the three signal entries, each possibly absent
(`values.get("xi", default)` in the consumer). -/
structure TelemetryValues where
  x1 : Option ℚ
  x2 : Option ℚ
  x3 : Option ℚ
deriving DecidableEq, Repr

/-- `@dataclass Telemetry` -/
structure Telemetry where
  source_id : String
  ts : String
  values : TelemetryValues
deriving DecidableEq, Repr

/-- An action dict such as `{"damp": d, "mode": m}`; `damp` is read with
`action.get("damp", 0.0)` so it is optional. -/
structure Decision where
  damp : Option ℚ
  mode : String
deriving DecidableEq, Repr

/-- `@dataclass TwinState` -/
structure TwinState where
  twin_id : String
  level : String
  topology_ref : String
  ts : String
  x1 : ℚ := 0
  x2 : ℚ := 0
  x3 : ℚ := 0
  health : ℚ := 1
  last_action : Option Decision := none
deriving DecidableEq, Repr

/-- `@dataclass SLA` -/
structure SLA where
  deadline_ms : ℤ := 20000
  max_queue_ms : ℤ := 60000
  max_cost_eur : ℚ := 3
  risk_class : RiskClass := .LOW
deriving DecidableEq, Repr

/-- `@dataclass QuantumConfig` -/
structure QuantumConfig where
  algorithm : String := "QAOA"
  shots : ℤ := 2000
  depth : ℤ := 3
  backend_preference : List String := ["QPU", "SIMULATOR"]
  seed : ℤ := 42
deriving DecidableEq, Repr

/-- One constraint hint entry of the problem payload. -/
structure ConstraintHint where
  name : String
  type : String
  weight : ℚ
deriving DecidableEq, Repr

/-- The synthetic QUBO payload built by `FeatureExtractor.build_qubo_stub`:
linear biases and quadratic couplings over symbolic variables. -/
structure Qubo where
  linear : List (String × ℚ)
  quadratic : List (String × String × ℚ)
deriving DecidableEq, Repr

/-- The `problem` dict of a QRE as built by `_build_qre`; `variables` is
optional because the gateway reads it with `problem.get("variables", 200)`. -/
structure Problem where
  type : String
  form : String
  objective : String
  variables' : Option ℤ
  discrete_frac : ℚ
  qubo : Qubo
  constraints_hint : List ConstraintHint
deriving DecidableEq, Repr

/-- The `trace` dict of a QRE. -/
structure Trace where
  correlation_id : String
  step_id : ℤ
deriving DecidableEq, Repr

/-- The `fallback` policy descriptor dict of a QRE. -/
structure FallbackDescriptor where
  policy : String
  reasons_to_trigger : List String
deriving DecidableEq, Repr

/-- The `twin_context` dict of a QRE. -/
structure TwinContext where
  twin_id : String
  level : String
  topology_ref : String
  timestamp : String
deriving DecidableEq, Repr

/-- `@dataclass QRE` -/
structure QRE where
  qre_version : String
  twin_context : TwinContext
  problem : Problem
  sla : SLA
  quantum_config : QuantumConfig
  fallback : FallbackDescriptor
  trace : Trace
deriving DecidableEq, Repr

/-- The `backend` metadata dict of a QuantumResult. -/
structure BackendMeta where
  provider : String
  backend_id : String
  mode : String
  queue_ms : Option ℤ
  exec_ms : Option ℤ
deriving DecidableEq, Repr

/-- The `solution` dict of a QuantumResult; every entry optional because the
validator probes presence with `in` / `.get`. -/
structure Solution where
  best_bitstring : Option String
  decoded_decision : Option Decision
  objective_value : Option ℚ
  confidence : Option ℚ
deriving DecidableEq, Repr

/-- The empty solution dict `{}`. -/
def Solution.empty : Solution :=
  ⟨none, none, none, none⟩

/-- The `diagnostics` dict of a QuantumResult. -/
structure Diagnostics where
  shots : Option ℤ
  depth : Option ℤ
  noise_proxy : Option ℚ
  cost_eur : Option ℚ
deriving DecidableEq, Repr

/-- The empty diagnostics dict `{}`. -/
def Diagnostics.empty : Diagnostics :=
  ⟨none, none, none, none⟩

/-- `@dataclass QuantumResult` -/
structure QuantumResult where
  correlation_id : String
  step_id : ℤ
  backend : BackendMeta
  status : JobStatus
  solution : Solution
  diagnostics : Diagnostics
  error : Option String := none
deriving DecidableEq, Repr

/-- `@dataclass ExecRecord` -/
structure ExecRecord where
  step_id : ℤ
  ts : String
  twin_id : String
  route : Route
  policy : String
  qpu_queue_ms : Option ℤ
  exec_ms : ℤ
  latency_breach : Bool
  fallback_reasons : List String
  objective_value : ℚ
  confidence : ℚ
  noise_proxy : Option ℚ
  cost_eur : Option ℚ
  qre_json : Option String := none
  result_json : Option String := none
deriving DecidableEq, Repr

/-- `@dataclass JobHandle` -/
structure JobHandle where
  job_id : String
  submit_ts : ℚ
  ready_ts : ℚ
  qre : QRE
  status : JobStatus := .PENDING
deriving DecidableEq, Repr

/-! ## Association-list helpers (Python dict keyed by twin id) -/

/-- Dict lookup. -/
def assocGet {α : Type} (l : List (String × α)) (k : String) : Option α :=
  match l with
  | [] => none
  | (k', v) :: rest => if k' = k then some v else assocGet rest k

/-- Dict assignment `d[k] = v` (replaces in place, appends if absent). -/
def assocSet {α : Type} (l : List (String × α)) (k : String) (v : α) :
    List (String × α) :=
  match l with
  | [] => [(k, v)]
  | (k', v') :: rest =>
    if k' = k then (k', v) :: rest else (k', v') :: assocSet rest k v

/-! ## Twin runtime (`class TwinCORE`) -/

/-- `TwinCORE`: registry of twin states plus the append-only history. -/
structure TwinCORE where
  registry : List (String × TwinState)
  history : List ExecRecord
deriving DecidableEq, Repr

/-- `TwinCORE.create_twin` (the source overwrites silently on duplicate id);
the TwinState defaults give `x = 0`, `health = 1`, no last action. -/
def TwinCORE.create_twin (core : TwinCORE) (twin_id level topology_ref ts : String) :
    TwinState × TwinCORE :=
  let st : TwinState :=
    { twin_id := twin_id, level := level, topology_ref := topology_ref, ts := ts }
  (st, { core with registry := assocSet core.registry twin_id st })

/-- `TwinCORE.update_from_telemetry`; `none` models the `KeyError` on an
unknown twin id.  `health = clip(1 - 0.15*|x1| - 0.10*|x2|, 0, 1)` on the
updated state vector. -/
def TwinCORE.update_from_telemetry (core : TwinCORE) (twin_id : String)
    (tel : Telemetry) : Option (TwinState × TwinCORE) :=
  match assocGet core.registry twin_id with
  | none => none
  | some st =>
    let nx1 := tel.values.x1.getD st.x1
    let nx2 := tel.values.x2.getD st.x2
    let nx3 := tel.values.x3.getD st.x3
    let st' : TwinState :=
      { st with
        ts := tel.ts, x1 := nx1, x2 := nx2, x3 := nx3,
        health := npClip (1 - (15/100) * |nx1| - (10/100) * |nx2|) 0 1 }
    some (st', { core with registry := assocSet core.registry twin_id st' })

/-- `TwinCORE.apply_action`; the damping hook fires only when the damp value
is Python-truthy (nonzero). -/
def TwinCORE.apply_action (core : TwinCORE) (twin_id : String) (action : Decision) :
    Option (TwinState × TwinCORE) :=
  match assocGet core.registry twin_id with
  | none => none
  | some st =>
    let damp := action.damp.getD 0
    let st' : TwinState :=
      if damp ≠ 0 then
        { st with last_action := some action,
                  x1 := st.x1 * (1 - (2/100) * damp),
                  x2 := st.x2 * (1 - (2/100) * damp) }
      else { st with last_action := some action }
    some (st', { core with registry := assocSet core.registry twin_id st' })

/-- `TwinCORE.append_record`. -/
def TwinCORE.append_record (core : TwinCORE) (rec : ExecRecord) : TwinCORE :=
  { core with history := core.history ++ [rec] }

/-! ## Feature extraction (`class FeatureExtractor`) -/

/-- The routing feature map returned by `FeatureExtractor.update` (the source
dict key `discrete_ratio` is the field `discrete_frac` here). -/
structure Features where
  mu1 : ℚ
  mu2 : ℚ
  mu3 : ℚ
  sig1 : ℚ
  sig2 : ℚ
  sig3 : ℚ
  discrete_frac : ℚ
  health : ℚ
deriving DecidableEq, Repr

/-- `FeatureExtractor`: sliding window buffers keyed by twin id. -/
structure FeatureExtractor where
  window : ℕ
  buffers : List (String × List (ℚ × ℚ × ℚ))
deriving DecidableEq, Repr

/-- Whether a sample of the third dimension is close to the discretised
ladder: `np.isclose(x, np.round(x*10)/10, atol=0.03)`. -/
def ladderClose (x : ℚ) : Bool :=
  npIsClose x ((roundHalfEven (x * 10) : ℚ) / 10)

/-- `FeatureExtractor.update`: append the sample, evict the oldest when the
window overflows, then compute per-dimension mean and std (the square root
inside `np.std` is the abstract parameter `sqrtQ`, floored by `1e-6`), the
`discrete_ratio` proxy, and the current health. -/
def FeatureExtractor.update (sqrtQ : ℚ → ℚ) (fe : FeatureExtractor)
    (st : TwinState) : Features × FeatureExtractor :=
  let buf0 := (assocGet fe.buffers st.twin_id).getD []
  let buf1 := buf0 ++ [(st.x1, st.x2, st.x3)]
  let buf := if fe.window < buf1.length then buf1.drop 1 else buf1
  let n : ℚ := (buf.length : ℚ)
  let c1 := buf.map (fun p => p.1)
  let c2 := buf.map (fun p => p.2.1)
  let c3 := buf.map (fun p => p.2.2)
  let mu1 := listMean c1
  let mu2 := listMean c2
  let mu3 := listMean c3
  let sig := fun (xs : List ℚ) (mu : ℚ) =>
    sqrtQ (listMean (xs.map (fun x => (x - mu) ^ 2))) + 1/1000000
  let closeCount : ℚ := ((c3.filter ladderClose).length : ℚ)
  { mu1 := mu1, mu2 := mu2, mu3 := mu3,
    sig1 := sig c1 mu1, sig2 := sig c2 mu2, sig3 := sig c3 mu3,
    discrete_frac := closeCount / n,
    health := st.health } |>
  fun feats => (feats, { fe with buffers := assocSet fe.buffers st.twin_id buf })

/-! ## Classical solver (`class ClassicalSolver`) -/

/-- `ClassicalSolver.solve`: deterministic baseline action, objective and
confidence. -/
def ClassicalSolver.solve (st : TwinState) (features : Features) :
    Decision × ℚ × ℚ :=
  let mag := |st.x1| + |st.x2|
  let damp := npClip (mag * 2) 0 5
  let objective := -((12/10) * mag + (3/10) * |st.x3| + (5/100) * damp)
  let confidence := npClip (85/100 - (10/100) * features.sig1) (4/10) (9/10)
  ({ damp := some damp, mode := "baseline_classical" }, objective, confidence)

/-! ## Simulated quantum gateway (`class SimulatedCloudQPU`) -/

/-- Mutable gateway state: its seeded generator (as a draw stream) and the
job counter. -/
structure SimulatedCloudQPU where
  rng : QStream
  job_counter : ℕ
deriving Inhabited

/-- Zero-padded job id `f"qjob-{n:06d}"`. -/
def jobIdStr (n : ℕ) : String :=
  let s := toString n
  let pad := String.mk (List.replicate (6 - s.length) '0')
  "qjob-" ++ pad ++ s

/-- `SimulatedCloudQPU.submit`: consumes one timestamp, then a gamma draw
(queue estimate) and a normal draw (execution jitter), in source order. -/
def SimulatedCloudQPU.submit (qpu : SimulatedCloudQPU) (clock : Clock)
    (qre : QRE) : JobHandle × SimulatedCloudQPU × Clock :=
  let counter := qpu.job_counter + 1
  let job_id := jobIdStr counter
  let (now, clock) := clock.next
  let n_vars := qre.problem.variables'.getD 200
  let (g, rng) := qpu.rng.next
  let base_queue := npClip g 1000 90000
  let queue_ms := base_queue + 2 * (n_vars : ℚ)
  let shots := qre.quantum_config.shots
  let depth := qre.quantum_config.depth
  let (nj, rng) := rng.next
  let exec_ms := npClip (150 + (2/100) * (shots : ℚ) + 120 * (depth : ℚ) + nj) 150 4000
  let ready_ts := now + (queue_ms + exec_ms) / 1000
  ({ job_id := job_id, submit_ts := now, ready_ts := ready_ts, qre := qre,
     status := .PENDING },
   { rng := rng, job_counter := counter }, clock)

/-- `SimulatedCloudQPU.poll`: consumes one timestamp; a terminal stored
status is returned frozen, otherwise the handle is marked PENDING before
`submit_ts + 0.2` and RUNNING afterwards (also past `ready_ts`: the terminal
state is decided in `get_result`). -/
def SimulatedCloudQPU.poll (clock : Clock) (handle : JobHandle) :
    JobStatus × JobHandle × Clock :=
  let now := clock.next.1
  let clock1 := clock.next.2
  if handle.status = .SUCCEEDED ∨ handle.status = .FAILED ∨
      handle.status = .CANCELLED then
    (handle.status, handle, clock1)
  else
    let s : JobStatus := if now < handle.submit_ts + 2/10 then .PENDING else .RUNNING
    (s, { handle with status := s }, clock1)

/-- Result of a `get_result` call: the QuantumResult plus the updated
gateway, clock and handle. -/
structure GetResultOut where
  qr : QuantumResult
  qpu : SimulatedCloudQPU
  clock : Clock
  handle : JobHandle

/-- `SimulatedCloudQPU.get_result`: before `ready_ts` returns a PENDING
result with empty solution and an explanatory error, without touching the
handle; at or after `ready_ts` it draws failure, noise and (on success) the
bitstring and objective, and stores the terminal status on the handle.
Note it never consults the handle's stored status. -/
def SimulatedCloudQPU.get_result (qpu : SimulatedCloudQPU) (clock : Clock)
    (handle : JobHandle) : GetResultOut :=
  let now := clock.next.1
  let clock1 := clock.next.2
  if now < handle.ready_ts then
    { qr :=
        { correlation_id := handle.qre.trace.correlation_id,
          step_id := handle.qre.trace.step_id,
          backend := { provider := "SIM_QPU", backend_id := "sim-qpu-1",
                       mode := "QPU", queue_ms := none, exec_ms := none },
          status := .PENDING, solution := Solution.empty,
          diagnostics := Diagnostics.empty,
          error := some "Result requested before ready" },
      qpu := qpu, clock := clock1, handle := handle }
  else
    let qre := handle.qre
    let n_vars := qre.problem.variables'.getD 200
    let risk := qre.sla.risk_class
    let base_fail : ℚ := 3/100 + (2/100000) * (n_vars : ℚ) +
      (if risk = .HIGH then 3/100 else if risk = .CRITICAL then 6/100 else 0)
    let f := qpu.rng.next.1
    let rng1 := qpu.rng.next.2
    let failed := decide (f < base_fail)
    let depth := qre.quantum_config.depth
    let nj := rng1.next.1
    let rng2 := rng1.next.2
    let noise_proxy :=
      npClip (3/100 + (2/100) * (depth : ℚ) + (1/100000) * (n_vars : ℚ) + nj) 0 (25/100)
    let shots := qre.quantum_config.shots
    let cost_eur :=
      npClip (1/4 + (2/10000) * (shots : ℚ) + (3/1000) * (depth : ℚ) +
        (1/100000) * (n_vars : ℚ)) (1/10) 10
    if failed then
      { qr :=
          { correlation_id := qre.trace.correlation_id,
            step_id := qre.trace.step_id,
            backend := { provider := "SIM_QPU", backend_id := "sim-qpu-1",
                         mode := "QPU",
                         queue_ms := some (pyInt ((handle.ready_ts - handle.submit_ts) * 1000)),
                         exec_ms := none },
            status := .FAILED, solution := Solution.empty,
            diagnostics := { shots := none, depth := none,
                             noise_proxy := some noise_proxy,
                             cost_eur := some cost_eur },
            error := some "Simulated QPU job failure" },
        qpu := { qpu with rng := rng2 }, clock := clock1,
        handle := { handle with status := .FAILED } }
    else
      let k := min 64 n_vars.toNat
      let draws := (QStream.take k rng2).1
      let rng3 := (QStream.take k rng2).2
      let bits := draws.map (fun x => decide (0 < x))
      let bitstring := String.mk (bits.map (fun b => if b then '1' else '0'))
      let ones : ℕ := (bits.filter id).length
      let damp := npClip (1/2 + 5 * (ones : ℚ) / (max 1 k : ℚ)) 0 5
      let o := rng3.next.1
      let rng4 := rng3.next.2
      let objective := -((9/10 + (15/10) * noise_proxy) * (8/10 + o))
      let confidence := npClip (8/10 - (18/10) * noise_proxy) (2/10) (85/100)
      { qr :=
          { correlation_id := qre.trace.correlation_id,
            step_id := qre.trace.step_id,
            backend := { provider := "SIM_QPU", backend_id := "sim-qpu-1",
                         mode := "QPU",
                         queue_ms := some (pyInt ((handle.ready_ts - handle.submit_ts) * 1000)),
                         exec_ms := some (pyInt (150 + (2/100) * (shots : ℚ) + 120 * (depth : ℚ))) },
            status := .SUCCEEDED,
            solution := { best_bitstring := some bitstring,
                          decoded_decision :=
                            some { damp := some damp, mode := "quantum_candidate" },
                          objective_value := some objective,
                          confidence := some confidence },
            diagnostics := { shots := some shots, depth := some depth,
                             noise_proxy := some noise_proxy,
                             cost_eur := some cost_eur },
            error := none },
        qpu := { qpu with rng := rng4 }, clock := clock1,
        handle := { handle with status := .SUCCEEDED } }

/-! ## Governance (`LatencyController`, `FallbackManager`, `ResultValidator`) -/

/-- `class LatencyController`. -/
structure LatencyController where
  deadline_ms : ℤ
deriving DecidableEq, Repr

/-- `LatencyController.breach`. -/
def LatencyController.breach (lc : LatencyController) (elapsed_ms : ℤ) : Bool :=
  decide (lc.deadline_ms < elapsed_ms)

/-- `class FallbackManager`. -/
structure FallbackManager where
  max_queue_ms : ℤ
  max_cost_eur : ℚ
  max_noise : ℚ
deriving DecidableEq, Repr

/-- The `FallbackManager(...)` constructor with its default noise ceiling
`max_noise = 0.15`. -/
def FallbackManager.make (max_queue_ms : ℤ) (max_cost_eur : ℚ)
    (max_noise : ℚ := 15/100) : FallbackManager :=
  { max_queue_ms := max_queue_ms, max_cost_eur := max_cost_eur,
    max_noise := max_noise }

/-- `FallbackManager.should_fallback`: independent, additive reasons; the
boolean is `len(reasons) > 0`. -/
def FallbackManager.should_fallback (m : FallbackManager) (status : JobStatus)
    (queue_ms : Option ℤ) (cost_eur : Option ℚ) (noise_proxy : Option ℚ) :
    Bool × List String :=
  let reasons : List String := []
  let reasons := if status = .FAILED ∨ status = .CANCELLED
    then reasons ++ ["JOB_FAILED"] else reasons
  let reasons := match queue_ms with
    | some q => if m.max_queue_ms < q then reasons ++ ["QUEUE_TIMEOUT"] else reasons
    | none => reasons
  let reasons := match cost_eur with
    | some c => if m.max_cost_eur < c then reasons ++ ["COST_BREACH"] else reasons
    | none => reasons
  let reasons := match noise_proxy with
    | some np => if m.max_noise < np then reasons ++ ["NOISE_TOO_HIGH"] else reasons
    | none => reasons
  (decide (0 < reasons.length), reasons)

/-- `ResultValidator.validate`: fails closed on a non-SUCCEEDED status, else
checks decision presence, damp bounds and objective presence. -/
def ResultValidator.validate (qr : QuantumResult) : Bool × List String :=
  if qr.status ≠ .SUCCEEDED then (false, ["NOT_SUCCEEDED"])
  else
    let reasons : List String :=
      (match qr.solution.decoded_decision with
        | none => ["MISSING_DECISION"]
        | some d =>
          match d.damp with
          | none => ["DECISION_OUT_OF_BOUNDS"]
          | some v => if ¬(0 ≤ v ∧ v ≤ 5) then ["DECISION_OUT_OF_BOUNDS"] else [])
      ++ (match qr.solution.objective_value with
        | none => ["MISSING_OBJECTIVE"]
        | some _ => [])
    (decide (reasons.length = 0), reasons)

/-! ## Routing policies (`SimpleRulePolicy`, `ContextualBanditPolicy`) -/

/-- `class SimpleRulePolicy` (orchestrator uses the defaults 0.6 / 0.25). -/
structure SimpleRulePolicy where
  min_discrete_frac : ℚ := 3/5
  min_health : ℚ := 1/4
deriving DecidableEq, Repr

/-- `SimpleRulePolicy.choose`: hard CRITICAL gate, health gate, then the
discrete-ratio/deadline gate for QUANTUM. -/
def SimpleRulePolicy.choose (p : SimpleRulePolicy) (features : Features)
    (sla : SLA) : Route :=
  if sla.risk_class = .CRITICAL then .CLASSICAL
  else if features.health < p.min_health then .CLASSICAL
  else if p.min_discrete_frac ≤ features.discrete_frac ∧ 15000 ≤ sla.deadline_ms
    then .QUANTUM
  else .CLASSICAL

/-- `class ContextualBanditPolicy`: 6 linear weights, bias, exploration rate
and its own seeded generator (as a draw stream). -/
structure ContextualBanditPolicy where
  w : List ℚ
  b : ℚ
  eps : ℚ
  rng : QStream
deriving Inhabited

/-- The `ContextualBanditPolicy(seed)` constructor: draws the 6 initial
weights from its generator, `b = 0`, default `eps = 0.12`. -/
def ContextualBanditPolicy.make (stream : Nat → ℚ) (eps : ℚ := 12/100) :
    ContextualBanditPolicy :=
  let (ws, rng) := QStream.take 6 { vals := stream, idx := 0 }
  { w := ws, b := 0, eps := eps, rng := rng }

/-- `ContextualBanditPolicy._phi`: the 6-dimensional feature projection. -/
def banditPhi (features : Features) (sla : SLA) : List ℚ :=
  [features.discrete_frac,
   features.health,
   npClip features.sig1 0 1,
   npClip features.sig2 0 1,
   (sla.deadline_ms : ℚ) / 60000,
   if sla.risk_class = .HIGH ∨ sla.risk_class = .MEDIUM then 1 else 0]

/-- `ContextualBanditPolicy.choose`: CRITICAL forces CLASSICAL before any
draw; otherwise one exploration draw (and, when exploring, one route draw),
else the sign of the linear score decides. -/
def ContextualBanditPolicy.choose (bd : ContextualBanditPolicy)
    (features : Features) (sla : SLA) : Route × ContextualBanditPolicy :=
  if sla.risk_class = .CRITICAL then (.CLASSICAL, bd)
  else
    let (e, rng) := bd.rng.next
    if e < bd.eps then
      let (r, rng) := rng.next
      ((if r < 1/2 then .QUANTUM else .CLASSICAL), { bd with rng := rng })
    else
      let score := dotQ bd.w (banditPhi features sla) + bd.b
      ((if 0 < score then .QUANTUM else .CLASSICAL), { bd with rng := rng })

/-- `ContextualBanditPolicy.update`: one gradient step on a tanh-squashed
score with `target = sign(reward)`; `np.tanh` is the abstract `tanhQ`. -/
def ContextualBanditPolicy.update (tanhQ : ℚ → ℚ) (bd : ContextualBanditPolicy)
    (features : Features) (sla : SLA) (_route : Route) (reward : ℚ) :
    ContextualBanditPolicy :=
  let lr : ℚ := 5/100
  let phi := banditPhi features sla
  let pred := dotQ bd.w phi + bd.b
  let y : ℚ := if 0 < reward then 1 else -1
  let err := y - tanhQ pred
  { bd with w := List.zipWith (fun wi pi => wi + lr * err * pi) bd.w phi,
            b := bd.b + lr * err }

/-! ## Hybrid orchestrator (`class HybridOrchestrator`) -/

/-- The abstract numeric/serialization environment: `sqrtQ` is the square
root inside `np.std`, `tanhQ` is `np.tanh`, `dumpQre`/`dumpResult` are
`json.dumps(asdict(...))`, and `quboGen` is the seeded numpy generation
inside `FeatureExtractor.build_qubo_stub` (its output is carried opaquely in
the QRE problem payload and never read by any governed decision). -/
structure Env where
  sqrtQ : ℚ → ℚ
  tanhQ : ℚ → ℚ
  dumpQre : QRE → String
  dumpResult : QuantumResult → String
  quboGen : Features → ℤ → Qubo

/-- Static orchestrator configuration: policy selector and the rule policy
(constructed with its defaults). -/
structure OrchConfig where
  policy_name : String
  rule : SimpleRulePolicy := {}

/-- Mutable orchestrator state threaded through steps.  `bandit_updates` is
instrumentation counting the calls of `ContextualBanditPolicy.update`. -/
structure OrchState where
  extractor : FeatureExtractor
  bandit : Option ContextualBanditPolicy
  qpu : SimulatedCloudQPU
  clock : Clock
  bandit_updates : ℕ

/-- `HybridOrchestrator._make_sla`. -/
def makeSla (risk : RiskClass) : SLA :=
  { deadline_ms := if risk ≠ .HIGH then 20000 else 25000,
    max_queue_ms := 60000, max_cost_eur := 3, risk_class := risk }

/-- `HybridOrchestrator._risk_classify` (reads the health feature). -/
def riskClassify (features : Features) : RiskClass :=
  if features.health < 15/100 then .CRITICAL
  else if features.health < 35/100 then .HIGH
  else if features.health < 60/100 then .MEDIUM
  else .LOW

/-- `HybridOrchestrator._build_qre`. -/
def buildQre (env : Env) (st : TwinState) (features : Features) (sla : SLA)
    (step_id : ℤ) (correlation_id : String) : QRE :=
  let n_vars := pyInt (200 + 1400 * features.discrete_frac)
  let qubo := env.quboGen features n_vars
  { qre_version := "1.0",
    twin_context := { twin_id := st.twin_id, level := st.level,
                      topology_ref := st.topology_ref, timestamp := st.ts },
    problem := { type := "COMBINATORIAL_OPT", form := "QUBO",
                 objective := "min_cost_with_constraints",
                 variables' := some n_vars,
                 discrete_frac := features.discrete_frac,
                 qubo := qubo,
                 constraints_hint :=
                   [{ name := "stability", type := "penalty", weight := 10 },
                    { name := "safety_bounds", type := "hard_or_penalty",
                      weight := 50 }] },
    sla := sla,
    quantum_config := { algorithm := "QAOA", shots := 2000, depth := 3, seed := 42 },
    fallback := { policy := "CLASSICAL_ON_FAILURE",
                  reasons_to_trigger :=
                    ["QUEUE_TIMEOUT", "JOB_FAILED", "NOISE_TOO_HIGH",
                     "COST_BREACH", "SLA_BREACH"] },
    trace := { correlation_id := correlation_id, step_id := step_id } }

/-- `HybridOrchestrator.decide_route`: the bandit decides only when the
policy name is "bandit" and a bandit instance exists, else the rule policy. -/
def decideRoute (cfg : OrchConfig) (banditOpt : Option ContextualBanditPolicy)
    (features : Features) (sla : SLA) : Route × Option ContextualBanditPolicy :=
  if cfg.policy_name = "bandit" then
    match banditOpt with
    | some bd =>
      let (r, bd') := bd.choose features sla
      (r, some bd')
    | none => (cfg.rule.choose features sla, none)
  else (cfg.rule.choose features sla, banditOpt)

/-- The polling loop of `HybridOrchestrator.step` (lines 648-658): poll,
break on a terminal status, else break with a locally synthesized CANCELLED
once elapsed time exceeds `int(0.90 * deadline_ms)`, else sleep and retry.
The boolean of the output marks an exit through the deadline branch.  `none`
models running out of fuel while the Python loop is still spinning. -/
def pollLoop (fuel : ℕ) (clock : Clock) (handle : JobHandle) (t0 : ℚ)
    (deadline_ms : ℤ) : Option (JobStatus × JobHandle × Clock × Bool) :=
  match fuel with
  | 0 => none
  | fuel + 1 =>
    let p := SimulatedCloudQPU.poll clock handle
    if p.1 = .SUCCEEDED ∨ p.1 = .FAILED ∨ p.1 = .CANCELLED then
      some (p.1, p.2.1, p.2.2, false)
    else
      let t := p.2.2.next.1
      let clock2 := p.2.2.next.2
      let elapsed_ms := pyInt ((t - t0) * 1000)
      if pyInt ((9/10) * (deadline_ms : ℚ)) < elapsed_ms then
        some (.CANCELLED, { p.2.1 with status := .CANCELLED }, clock2, true)
      else
        pollLoop fuel clock2 p.2.1 t0 deadline_ms

/-- Outcome of the route-dependent part of `HybridOrchestrator.step` (the
body up to line 679): the provisional final route, the chosen action /
objective / confidence, the accumulated fallback reasons, the audit
snapshots and governance metadata, and the threaded gateway/clock state.
`viaDeadline` marks a quantum attempt whose polling loop exited through the
90%-of-deadline cancellation branch. -/
structure BranchOut where
  preRoute : Route
  action : Decision
  obj : ℚ
  conf : ℚ
  reasons : List String
  qre_json : Option String
  result_json : Option String
  qpu_queue_ms : Option ℤ
  noise_proxy : Option ℚ
  cost_eur : Option ℚ
  qrOpt : Option QuantumResult
  viaDeadline : Bool
  qpu : SimulatedCloudQPU
  clock : Clock

/-- The route-dependent part of `HybridOrchestrator.step`: default to the
classical solution; on a QUANTUM intent build the QRE, submit, poll (with
deadline cancellation), fetch the result, run validator and fallback
manager, and either fall back to the classical output or adopt the quantum
decision.  `none` models fuel exhaustion in the polling loop or a Python
`KeyError` on the adopted solution. -/
def stepBranch (env : Env) (fuel : ℕ) (qpu0 : SimulatedCloudQPU)
    (clock0 : Clock) (st : TwinState) (features : Features) (sla : SLA)
    (fbm : FallbackManager) (route : Route) (step_id : ℤ)
    (correlation_id : String) (t0 : ℚ) : Option BranchOut :=
  let cls := ClassicalSolver.solve st features
  let cAct := cls.1
  let cObj := cls.2.1
  let cConf := cls.2.2
  if route = .QUANTUM then
    let qre := buildQre env st features sla step_id correlation_id
    let qre_json := env.dumpQre qre
    let sub := SimulatedCloudQPU.submit qpu0 clock0 qre
    match pollLoop fuel sub.2.2 sub.1 t0 sla.deadline_ms with
    | none => none
    | some pl =>
      let gr := SimulatedCloudQPU.get_result sub.2.1 pl.2.2.1 pl.2.1
      let qr := gr.qr
      let result_json := env.dumpResult qr
      let qpu_queue_ms := qr.backend.queue_ms
      let noise_proxy := qr.diagnostics.noise_proxy
      let cost_eur := qr.diagnostics.cost_eur
      let valid := (ResultValidator.validate qr).1
      let val_reasons := (ResultValidator.validate qr).2
      let fb := (fbm.should_fallback qr.status qpu_queue_ms cost_eur noise_proxy).1
      let reasons := (fbm.should_fallback qr.status qpu_queue_ms cost_eur noise_proxy).2
      let fallback_reasons := reasons ++ (if valid then [] else ["RESULT_INVALID"])
        ++ (if valid then [] else val_reasons)
      if fb ∨ valid = false then
        some { preRoute := .FALLBACK_CLASSICAL, action := cAct, obj := cObj,
               conf := cConf, reasons := fallback_reasons,
               qre_json := some qre_json, result_json := some result_json,
               qpu_queue_ms := qpu_queue_ms, noise_proxy := noise_proxy,
               cost_eur := cost_eur, qrOpt := some qr,
               viaDeadline := pl.2.2.2, qpu := gr.qpu, clock := gr.clock }
      else
        match qr.solution.decoded_decision with
        | none => none
        | some d =>
          match qr.solution.objective_value with
          | none => none
          | some o =>
            some { preRoute := .QUANTUM, action := d, obj := o,
                   conf := qr.solution.confidence.getD (1/2),
                   reasons := fallback_reasons,
                   qre_json := some qre_json, result_json := some result_json,
                   qpu_queue_ms := qpu_queue_ms, noise_proxy := noise_proxy,
                   cost_eur := cost_eur, qrOpt := some qr,
                   viaDeadline := pl.2.2.2, qpu := gr.qpu, clock := gr.clock }
  else
    some { preRoute := .CLASSICAL, action := cAct, obj := cObj, conf := cConf,
           reasons := [], qre_json := none, result_json := none,
           qpu_queue_ms := none, noise_proxy := none, cost_eur := none,
           qrOpt := none, viaDeadline := false, qpu := qpu0, clock := clock0 }

/-- The full outcome of one orchestrator step: the action and ExecRecord the
source returns, the threaded orchestrator state, and instrumentation for the
claims (the fetched QuantumResult, the deadline-cancellation flag, the
realized bandit reward, the final objective and elapsed milliseconds). -/
structure StepOut where
  action : Decision
  record : ExecRecord
  state : OrchState
  qrOpt : Option QuantumResult
  viaDeadline : Bool
  rewardOpt : Option ℚ
  objVal : ℚ
  elapsedMs : ℤ

/-- The tail of `HybridOrchestrator.step` (lines 681-716): measure elapsed
time, apply the latency breach rule (append `SLA_BREACH`; downgrade a still
QUANTUM route to FALLBACK_CLASSICAL with a classical recomputation), update
the bandit exactly once with the realized reward when the bandit policy is
active, and assemble the ExecRecord. -/
def finishStep (env : Env) (cfg : OrchConfig) (extractor : FeatureExtractor)
    (banditOpt : Option ContextualBanditPolicy) (updates : ℕ)
    (st : TwinState) (features : Features) (sla : SLA) (step_id : ℤ)
    (t0 : ℚ) (br : BranchOut) : StepOut :=
  let tEnd := br.clock.next.1
  let clock := br.clock.next.2
  let elapsed_ms := pyInt ((tEnd - t0) * 1000)
  let lc : LatencyController := { deadline_ms := sla.deadline_ms }
  let breach := lc.breach elapsed_ms
  let fallback_reasons :=
    if breach then br.reasons ++ ["SLA_BREACH"] else br.reasons
  let downgrade := breach = true ∧ br.preRoute = .QUANTUM
  let final_route := if downgrade then Route.FALLBACK_CLASSICAL else br.preRoute
  let action := if downgrade then (ClassicalSolver.solve st features).1 else br.action
  let obj := if downgrade then (ClassicalSolver.solve st features).2.1 else br.obj
  let conf := if downgrade then (ClassicalSolver.solve st features).2.2 else br.conf
  let reward := obj - (8/10000) * (elapsed_ms : ℚ) -
    (if final_route = .FALLBACK_CLASSICAL then 2/10 else 0)
  let banditActive := cfg.policy_name = "bandit" ∧ banditOpt.isSome = true
  let banditOpt' :=
    if banditActive then
      banditOpt.map (fun bd => bd.update env.tanhQ features sla final_route reward)
    else banditOpt
  let updates' := if banditActive then updates + 1 else updates
  let rewardOpt := if banditActive then some reward else none
  { action := action,
    record :=
      { step_id := step_id, ts := st.ts, twin_id := st.twin_id,
        route := final_route, policy := cfg.policy_name,
        qpu_queue_ms := br.qpu_queue_ms, exec_ms := elapsed_ms,
        latency_breach := breach, fallback_reasons := fallback_reasons,
        objective_value := obj, confidence := conf,
        noise_proxy := br.noise_proxy, cost_eur := br.cost_eur,
        qre_json := br.qre_json, result_json := br.result_json },
    state := { extractor := extractor, bandit := banditOpt', qpu := br.qpu,
               clock := clock, bandit_updates := updates' },
    qrOpt := br.qrOpt, viaDeadline := br.viaDeadline,
    rewardOpt := rewardOpt, objVal := obj, elapsedMs := elapsed_ms }

/-- `HybridOrchestrator.step` (the full per-step state machine), returning
the action, the ExecRecord and the threaded state plus instrumentation. -/
def stepCore (env : Env) (cfg : OrchConfig) (s : OrchState) (st : TwinState)
    (step_id : ℤ) (correlation_id : String) (fuel : ℕ) : Option StepOut :=
  let t0 := s.clock.next.1
  let clock := s.clock.next.2
  let features := (s.extractor.update env.sqrtQ st).1
  let extractor := (s.extractor.update env.sqrtQ st).2
  let risk := riskClassify features
  let sla := makeSla risk
  let route := (decideRoute cfg s.bandit features sla).1
  let banditOpt := (decideRoute cfg s.bandit features sla).2
  let fbm := FallbackManager.make sla.max_queue_ms sla.max_cost_eur
  match stepBranch env fuel s.qpu clock st features sla fbm route step_id
      correlation_id t0 with
  | none => none
  | some br =>
    some (finishStep env cfg extractor banditOpt s.bandit_updates st features
      sla step_id t0 br)

/-- The driver loop of `run_sim` (lines 742-751) over an externally supplied
telemetry sequence (the telemetry source is an external collaborator): for
each `(twin_id, telemetry)` item, ingest telemetry, run one orchestrator
step, apply the action and append the record.  `none` propagates an unknown
twin id (`KeyError`) or a failed step. -/
def runSteps (env : Env) (cfg : OrchConfig) (fuel : ℕ) (correlation_id : String) :
    List (String × Telemetry) → TwinCORE → OrchState → ℤ →
    Option (TwinCORE × OrchState × ℤ)
  | [], core, s, step_id => some (core, s, step_id)
  | (twin_id, tel) :: rest, core, s, step_id =>
    let step_id := step_id + 1
    match core.update_from_telemetry twin_id tel with
    | none => none
    | some pr =>
      match stepCore env cfg s pr.1 step_id correlation_id fuel with
      | none => none
      | some out =>
        match pr.2.apply_action twin_id out.action with
        | none => none
        | some pr2 =>
          let core2 := pr2.2.append_record out.record
          runSteps env cfg fuel correlation_id rest core2 out.state step_id

/-! ## Concrete instantiations used by witnesses and counterexamples -/

/-- A concrete environment: every abstracted numeric / serialization kernel
is instantiated trivially (theorems quantify over arbitrary environments;
witnesses may pick any). -/
def envZ : Env :=
  { sqrtQ := fun _ => 0, tanhQ := fun _ => 0, dumpQre := fun _ => "qre",
    dumpResult := fun _ => "result", quboGen := fun _ _ => ⟨[], []⟩ }

/-- Rule-policy configuration. -/
def cfgRule : OrchConfig := { policy_name := "rule" }

/-- Bandit-policy configuration. -/
def cfgBandit : OrchConfig := { policy_name := "bandit" }

/-- A fresh feature extractor with the default window 12. -/
def extractor0 : FeatureExtractor := { window := 12, buffers := [] }

/-- A twin state that routes QUANTUM under the rule policy: perfect health,
`x3` on the discretised ladder. -/
def stQ : TwinState :=
  { twin_id := "t", level := "asset", topology_ref := "g", ts := "T",
    x1 := 0, x2 := 0, x3 := 1/10, health := 1 }

/-- A twin state that routes CLASSICAL (health 0 forces CRITICAL risk). -/
def stC : TwinState :=
  { twin_id := "t", level := "asset", topology_ref := "g", ts := "T",
    x1 := 10, x2 := 0, x3 := 0, health := 0 }

/-- A clock for the quantum scenario: the step starts at 0 and every later
observation is at 19 s, so the first deadline check (19000 ms > 18000 ms)
force-cancels, yet the job (ready at 5.75 s) is ready when fetched and the
final elapsed time (19000 ms) does not breach the 20000 ms deadline. -/
def clockQ : Clock := { vals := fun n => if n ≤ 2 then 0 else 19, idx := 0 }

/-- Gateway draws for the quantum scenario: queue 2000 ms, no execution
jitter, a failure draw above the failure probability, no noise jitter, an
all-ones bitstring and a mid-range objective draw. -/
def rngQ : QStream :=
  { vals := fun n => if n = 0 then 2000 else if n = 1 then 0
      else if n = 3 then 0 else 1/2, idx := 0 }

/-- Orchestrator state for the quantum scenario. -/
def stateQ : OrchState :=
  { extractor := extractor0, bandit := none,
    qpu := { rng := rngQ, job_counter := 0 }, clock := clockQ,
    bandit_updates := 0 }

/-- A clock whose second observation is 30 s after the first: a classical
step measured against it breaches the 20000 ms deadline. -/
def clockSlow : Clock := { vals := fun n => if n = 0 then 0 else 30, idx := 0 }

/-- Orchestrator state for the breaching classical scenario. -/
def stateSlow : OrchState :=
  { extractor := extractor0, bandit := none,
    qpu := { rng := rngQ, job_counter := 0 }, clock := clockSlow,
    bandit_updates := 0 }

/-- A minimal QRE for direct gateway calls: 200 variables, default SLA and
quantum configuration. -/
def qreD : QRE :=
  { qre_version := "1.0", twin_context := ⟨"t", "asset", "g", "T"⟩,
    problem := { type := "COMBINATORIAL_OPT", form := "QUBO",
                 objective := "min_cost_with_constraints",
                 variables' := some 200, discrete_frac := 0,
                 qubo := ⟨[], []⟩, constraints_hint := [] },
    sla := {}, quantum_config := {}, fallback := ⟨"CLASSICAL_ON_FAILURE", []⟩,
    trace := ⟨"c", 1⟩ }

/-- A job handle already past its readiness time (ready at 1 s). -/
def handleD : JobHandle :=
  { job_id := "qjob-000001", submit_ts := 0, ready_ts := 1, qre := qreD }

/-- Gateway draws under which the first `get_result` call succeeds (failure
draw 1/2 at index 0) and the second call fails (failure draw 1/100 at index
67, below the failure probability 0.034). -/
def rngD : QStream := { vals := fun n => if n = 67 then 1/100 else 1/2, idx := 0 }

/-- A clock always past readiness for the double `get_result` calls. -/
def clockD : Clock := { vals := fun _ => 5, idx := 0 }

/-- First `get_result` call of the idempotence experiment. -/
def grFirst : GetResultOut :=
  SimulatedCloudQPU.get_result { rng := rngD, job_counter := 0 } clockD handleD

/-- Second `get_result` call, on the handle and state left by the first. -/
def grSecond : GetResultOut :=
  SimulatedCloudQPU.get_result grFirst.qpu grFirst.clock grFirst.handle

/-- A registry holding the single twin "t" (as created by `create_twin`). -/
def coreT : TwinCORE :=
  { registry := [("t", { twin_id := "t", level := "asset", topology_ref := "g",
                         ts := "T0" })], history := [] }

/-- One telemetry sample driving twin "t" to health 0 (CRITICAL risk, hence
a CLASSICAL route). -/
def telC : Telemetry :=
  { source_id := "t", ts := "T1",
    values := { x1 := some 10, x2 := some 0, x3 := some 0 } }

/-- A concrete bandit instance (weights drawn from an all-zero stream). -/
def banditZ : ContextualBanditPolicy :=
  ContextualBanditPolicy.make (fun _ => 0)

/-- Orchestrator state for a one-step bandit run on a fast clock. -/
def stateBandit : OrchState :=
  { extractor := extractor0, bandit := some banditZ,
    qpu := { rng := rngQ, job_counter := 0 },
    clock := { vals := fun _ => 0, idx := 0 }, bandit_updates := 0 }

/-- Orchestrator state on an all-zero clock (fast run). -/
def stateFast : OrchState :=
  { extractor := extractor0, bandit := none,
    qpu := { rng := rngQ, job_counter := 0 },
    clock := { vals := fun _ => 0, idx := 0 }, bandit_updates := 0 }

/-- A non-terminal handle for the polling claims. -/
def handleP : JobHandle :=
  { job_id := "qjob-000002", submit_ts := 0, ready_ts := 1, qre := qreD }

/-! ## Helper lemmas -/

/-- The boolean `len(reasons) > 0` is exactly non-emptiness of the list. -/
lemma decide_length_pos (l : List String) :
    decide (0 < l.length) = decide (l ≠ []) := by
  cases l <;> simp

/-- The fallback flag is exactly non-emptiness of the reason list. -/
lemma should_fallback_flag (m : FallbackManager) (s : JobStatus)
    (q : Option ℤ) (c n : Option ℚ) :
    (m.should_fallback s q c n).1 = true ↔ (m.should_fallback s q c n).2 ≠ [] := by
  simp only [FallbackManager.should_fallback, decide_length_pos, decide_eq_true_eq]

/-- A valid result is SUCCEEDED, carries a decision whose damp lies in
[0, 5], and carries an objective value. -/
lemma validate_true (qr : QuantumResult)
    (h : (ResultValidator.validate qr).1 = true) :
    qr.status = .SUCCEEDED ∧
    ∃ d, qr.solution.decoded_decision = some d ∧
      ∃ v, d.damp = some v ∧ 0 ≤ v ∧ v ≤ 5 ∧
        qr.solution.objective_value.isSome = true := by
  unfold ResultValidator.validate at h
  by_cases hs : qr.status = .SUCCEEDED
  · refine ⟨hs, ?_⟩
    rw [if_neg (by simp [hs])] at h
    rcases hd : qr.solution.decoded_decision with _ | d
    · simp [hd] at h
    · rcases hv : d.damp with _ | v
      · simp [hd, hv] at h
      · rcases ho : qr.solution.objective_value with _ | o
        · simp [hd, hv, ho] at h
        · by_cases hb : 0 ≤ v ∧ v ≤ 5
          · exact ⟨d, rfl, v, by simp [hv], hb.1, hb.2, by simp [ho]⟩
          · simp [hd, hv, ho, hb] at h
  · rw [if_pos hs] at h
    simp at h

/-- `get_result` only ever reports PENDING, FAILED or SUCCEEDED — never
CANCELLED (it ignores any stored terminal status, including a locally
synthesized cancellation). -/
lemma get_result_status (qpu : SimulatedCloudQPU) (clock : Clock)
    (handle : JobHandle) :
    (SimulatedCloudQPU.get_result qpu clock handle).qr.status = .PENDING ∨
    (SimulatedCloudQPU.get_result qpu clock handle).qr.status = .FAILED ∨
    (SimulatedCloudQPU.get_result qpu clock handle).qr.status = .SUCCEEDED := by
  unfold SimulatedCloudQPU.get_result
  by_cases hr : clock.next.1 < handle.ready_ts
  · rw [if_pos hr]; left; rfl
  · rw [if_neg hr]
    by_cases hf : decide (qpu.rng.next.1 <
        3/100 + 2/100000 * ((handle.qre.problem.variables'.getD 200 : ℤ) : ℚ) +
        (if handle.qre.sla.risk_class = .HIGH then 3/100
         else if handle.qre.sla.risk_class = .CRITICAL then 6/100 else 0)) = true
    · rw [if_pos hf]; right; left; rfl
    · rw [if_neg hf]; right; right; rfl

/-- On a non-terminal handle, `poll` returns only PENDING or RUNNING, and
stores exactly what it returned. -/
lemma poll_nonterminal (clock : Clock) (handle : JobHandle)
    (h1 : handle.status ≠ .SUCCEEDED) (h2 : handle.status ≠ .FAILED)
    (h3 : handle.status ≠ .CANCELLED) :
    ((SimulatedCloudQPU.poll clock handle).1 = .PENDING ∨
     (SimulatedCloudQPU.poll clock handle).1 = .RUNNING) ∧
    (SimulatedCloudQPU.poll clock handle).2.1.status =
      (SimulatedCloudQPU.poll clock handle).1 := by
  unfold SimulatedCloudQPU.poll
  rw [if_neg (by simp [h1, h2, h3])]
  constructor
  · by_cases hn : clock.next.1 < handle.submit_ts + 2/10
    · left; simp [hn]
    · right; simp [hn]
  · rfl

/-- If the polling loop terminates starting from a non-terminal handle, it
can only have exited through the 90%-of-deadline cancellation branch, with
a locally synthesized CANCELLED status stored on the handle. -/
lemma pollLoop_deadline (fuel : ℕ) :
    ∀ (clock : Clock) (handle : JobHandle) (t0 : ℚ) (dl : ℤ)
      (out : JobStatus × JobHandle × Clock × Bool),
      handle.status ≠ .SUCCEEDED → handle.status ≠ .FAILED →
      handle.status ≠ .CANCELLED →
      pollLoop fuel clock handle t0 dl = some out →
      out.2.2.2 = true ∧ out.1 = .CANCELLED ∧ out.2.1.status = .CANCELLED := by
  induction fuel with
  | zero => intro clock handle t0 dl out _ _ _ he; simp [pollLoop] at he
  | succ n ih =>
    intro clock handle t0 dl out h1 h2 h3 he
    have hp := poll_nonterminal clock handle h1 h2 h3
    unfold pollLoop at he
    rw [if_neg (by rcases hp.1 with h | h <;> simp [h])] at he
    by_cases hd : pyInt ((9/10) * (dl : ℚ)) <
        pyInt (((SimulatedCloudQPU.poll clock handle).2.2.next.1 - t0) * 1000)
    · rw [if_pos hd] at he
      injection he with he
      subst he
      exact ⟨rfl, rfl, rfl⟩
    · rw [if_neg hd] at he
      have hs1 : (SimulatedCloudQPU.poll clock handle).2.1.status ≠ .SUCCEEDED := by
        rw [hp.2]; rcases hp.1 with h | h <;> simp [h]
      have hs2 : (SimulatedCloudQPU.poll clock handle).2.1.status ≠ .FAILED := by
        rw [hp.2]; rcases hp.1 with h | h <;> simp [h]
      have hs3 : (SimulatedCloudQPU.poll clock handle).2.1.status ≠ .CANCELLED := by
        rw [hp.2]; rcases hp.1 with h | h <;> simp [h]
      exact ih _ _ t0 dl out hs1 hs2 hs3 he

/-- Invariants of the route-dependent part of a step: the provisional route
is FALLBACK_CLASSICAL exactly when the accumulated reasons are non-empty; a
provisional QUANTUM route means empty reasons and a fetched result that
passed the validator; every fetched result is serialized into the record
and is never CANCELLED; a deadline-cancelled attempt still fetches a
result. -/
lemma stepBranch_inv (env : Env) (fuel : ℕ) (qpu0 : SimulatedCloudQPU)
    (clock0 : Clock) (st : TwinState) (features : Features) (sla : SLA)
    (fbm : FallbackManager) (route : Route) (sid : ℤ) (cid : String)
    (t0 : ℚ) (br : BranchOut)
    (h : stepBranch env fuel qpu0 clock0 st features sla fbm route sid cid t0 = some br) :
    (br.preRoute = .FALLBACK_CLASSICAL ↔ br.reasons ≠ []) ∧
    (br.preRoute = .QUANTUM →
      br.reasons = [] ∧ ∃ qr, br.qrOpt = some qr ∧
        (ResultValidator.validate qr).1 = true) ∧
    (∀ qr, br.qrOpt = some qr →
      br.result_json = some (env.dumpResult qr) ∧ qr.status ≠ .CANCELLED) ∧
    (br.viaDeadline = true → br.qrOpt.isSome = true) := by
  simp only [stepBranch] at h
  by_cases hroute : route = .QUANTUM
  · rw [if_pos hroute] at h
    rcases hpl : pollLoop fuel
        (SimulatedCloudQPU.submit qpu0 clock0
          (buildQre env st features sla sid cid)).2.2
        (SimulatedCloudQPU.submit qpu0 clock0
          (buildQre env st features sla sid cid)).1 t0 sla.deadline_ms
      with _ | pl
    · rw [hpl] at h; exact absurd h (by simp)
    · rw [hpl] at h
      simp only [] at h
      set gr := SimulatedCloudQPU.get_result
        (SimulatedCloudQPU.submit qpu0 clock0
          (buildQre env st features sla sid cid)).2.1 pl.2.2.1 pl.2.1 with hgr
      have hnc : gr.qr.status ≠ .CANCELLED := by
        rw [hgr]
        rcases get_result_status
            (SimulatedCloudQPU.submit qpu0 clock0
              (buildQre env st features sla sid cid)).2.1 pl.2.2.1 pl.2.1
          with hx | hx | hx <;> simp [hx]
      by_cases hfb : ((fbm.should_fallback gr.qr.status gr.qr.backend.queue_ms
          gr.qr.diagnostics.cost_eur gr.qr.diagnostics.noise_proxy).1 = true ∨
          (ResultValidator.validate gr.qr).1 = false)
      · rw [if_pos hfb] at h
        injection h with h
        subst h
        refine ⟨?_, by simp, ?_, ?_⟩
        · simp only [ne_eq, true_iff]
          rcases hfb with hfb | hfb
          · have := (should_fallback_flag fbm gr.qr.status gr.qr.backend.queue_ms
              gr.qr.diagnostics.cost_eur gr.qr.diagnostics.noise_proxy).mp hfb
            simp [this]
          · simp [hfb]
        · intro qr hqr
          simp only [Option.some.injEq] at hqr
          subst hqr
          exact ⟨rfl, hnc⟩
        · intro _; rfl
      · push_neg at hfb
        rw [if_neg (by simp [hfb.1, hfb.2])] at h
        have hvalid : (ResultValidator.validate gr.qr).1 = true := by
          rcases Bool.dichotomy (ResultValidator.validate gr.qr).1 with hx | hx
          · exact absurd hx hfb.2
          · exact hx
        have hfbf : (fbm.should_fallback gr.qr.status gr.qr.backend.queue_ms
            gr.qr.diagnostics.cost_eur gr.qr.diagnostics.noise_proxy).1 = false := by
          rcases Bool.dichotomy (fbm.should_fallback gr.qr.status gr.qr.backend.queue_ms
            gr.qr.diagnostics.cost_eur gr.qr.diagnostics.noise_proxy).1 with hx | hx
          · exact hx
          · exact absurd hx hfb.1
        have hreasons : (fbm.should_fallback gr.qr.status gr.qr.backend.queue_ms
            gr.qr.diagnostics.cost_eur gr.qr.diagnostics.noise_proxy).2 = [] := by
          by_contra hne
          have := (should_fallback_flag fbm gr.qr.status gr.qr.backend.queue_ms
            gr.qr.diagnostics.cost_eur gr.qr.diagnostics.noise_proxy).mpr hne
          rw [this] at hfbf
          exact absurd hfbf (by simp)
        rcases hd : gr.qr.solution.decoded_decision with _ | d
        · rw [hd] at h; exact absurd h (by simp)
        · rw [hd] at h
          rcases ho : gr.qr.solution.objective_value with _ | o
          · rw [ho] at h; exact absurd h (by simp)
          · rw [ho] at h
            injection h with h
            subst h
            refine ⟨by simp [hreasons, hvalid], ?_, ?_, ?_⟩
            · intro _
              exact ⟨by simp [hreasons, hvalid], gr.qr, rfl, hvalid⟩
            · intro qr hqr
              simp only [Option.some.injEq] at hqr
              subst hqr
              exact ⟨rfl, hnc⟩
            · intro _; rfl
  · rw [if_neg hroute] at h
    injection h with h
    subst h
    exact ⟨by simp, by simp, by simp, by simp⟩

/-- The record copies the branch's serialized result unchanged. -/
lemma finishStep_result_json (env : Env) (cfg : OrchConfig)
    (extractor : FeatureExtractor) (banditOpt : Option ContextualBanditPolicy)
    (updates : ℕ) (st : TwinState) (features : Features) (sla : SLA)
    (sid : ℤ) (t0 : ℚ) (br : BranchOut) :
    (finishStep env cfg extractor banditOpt updates st features sla sid t0
      br).record.result_json = br.result_json := rfl

/-- The step output copies the branch's fetched result unchanged. -/
lemma finishStep_qrOpt (env : Env) (cfg : OrchConfig)
    (extractor : FeatureExtractor) (banditOpt : Option ContextualBanditPolicy)
    (updates : ℕ) (st : TwinState) (features : Features) (sla : SLA)
    (sid : ℤ) (t0 : ℚ) (br : BranchOut) :
    (finishStep env cfg extractor banditOpt updates st features sla sid t0
      br).qrOpt = br.qrOpt := rfl

/-- The step output copies the branch's deadline-cancellation flag. -/
lemma finishStep_viaDeadline (env : Env) (cfg : OrchConfig)
    (extractor : FeatureExtractor) (banditOpt : Option ContextualBanditPolicy)
    (updates : ℕ) (st : TwinState) (features : Features) (sla : SLA)
    (sid : ℤ) (t0 : ℚ) (br : BranchOut) :
    (finishStep env cfg extractor banditOpt updates st features sla sid t0
      br).viaDeadline = br.viaDeadline := rfl

/-- Reason/route bookkeeping of the step tail: when the provisional route is
FALLBACK_CLASSICAL exactly on non-empty reasons, the final record's reasons
are non-empty exactly when the final route is FALLBACK_CLASSICAL or the
latency deadline was breached. -/
lemma finishStep_reasons (env : Env) (cfg : OrchConfig)
    (extractor : FeatureExtractor) (banditOpt : Option ContextualBanditPolicy)
    (updates : ℕ) (st : TwinState) (features : Features) (sla : SLA)
    (sid : ℤ) (t0 : ℚ) (br : BranchOut)
    (hbr : br.preRoute = .FALLBACK_CLASSICAL ↔ br.reasons ≠ []) :
    ((finishStep env cfg extractor banditOpt updates st features sla sid t0
        br).record.fallback_reasons ≠ [] ↔
      ((finishStep env cfg extractor banditOpt updates st features sla sid t0
          br).record.route = .FALLBACK_CLASSICAL ∨
       (finishStep env cfg extractor banditOpt updates st features sla sid t0
          br).record.latency_breach = true)) := by
  simp only [finishStep]
  rcases Bool.dichotomy (LatencyController.breach { deadline_ms := sla.deadline_ms }
      (pyInt ((br.clock.next.1 - t0) * 1000))) with hb | hb
  · rw [hb]
    simp only [Bool.false_eq_true, if_false, false_and, and_false, or_false]
    exact hbr.symm
  · rw [hb]
    simp only [if_true, true_and, and_true, or_true, iff_true]
    simp

/-- A final QUANTUM route means the provisional route was QUANTUM and the
latency deadline was not breached (a breach would have downgraded it). -/
lemma finishStep_route_quantum (env : Env) (cfg : OrchConfig)
    (extractor : FeatureExtractor) (banditOpt : Option ContextualBanditPolicy)
    (updates : ℕ) (st : TwinState) (features : Features) (sla : SLA)
    (sid : ℤ) (t0 : ℚ) (br : BranchOut)
    (h : (finishStep env cfg extractor banditOpt updates st features sla sid t0
        br).record.route = .QUANTUM) :
    br.preRoute = .QUANTUM ∧
    (finishStep env cfg extractor banditOpt updates st features sla sid t0
      br).record.latency_breach = false := by
  simp only [finishStep] at h ⊢
  rcases Bool.dichotomy (LatencyController.breach { deadline_ms := sla.deadline_ms }
      (pyInt ((br.clock.next.1 - t0) * 1000))) with hb | hb
  · rw [hb] at h ⊢
    simp only [Bool.false_eq_true, false_and, if_false] at h
    exact ⟨h, rfl⟩
  · rw [hb] at h ⊢
    by_cases hq : br.preRoute = .QUANTUM
    · rw [if_pos ⟨rfl, hq⟩] at h
      exact absurd h (by simp)
    · rw [if_neg (by simp [hq])] at h
      exact absurd h hq

/-- When the bandit policy is active, the step tail performs exactly one
bandit update and reports the realized reward
`objective − 0.0008·elapsed − (0.2 if the final route fell back)`. -/
lemma finishStep_bandit (env : Env) (cfg : OrchConfig)
    (extractor : FeatureExtractor) (banditOpt : Option ContextualBanditPolicy)
    (updates : ℕ) (st : TwinState) (features : Features) (sla : SLA)
    (sid : ℤ) (t0 : ℚ) (br : BranchOut)
    (hp : cfg.policy_name = "bandit") (hb : banditOpt.isSome = true) :
    (finishStep env cfg extractor banditOpt updates st features sla sid t0
      br).state.bandit_updates = updates + 1 ∧
    (finishStep env cfg extractor banditOpt updates st features sla sid t0
      br).state.bandit.isSome = true ∧
    (finishStep env cfg extractor banditOpt updates st features sla sid t0
      br).rewardOpt = some
        ((finishStep env cfg extractor banditOpt updates st features sla sid t0
            br).objVal -
          (8/10000) * (((finishStep env cfg extractor banditOpt updates st
              features sla sid t0 br).elapsedMs : ℤ) : ℚ) -
          (if (finishStep env cfg extractor banditOpt updates st features sla
              sid t0 br).record.route = .FALLBACK_CLASSICAL then 2/10 else 0)) := by
  rcases banditOpt with _ | bd
  · simp at hb
  · simp [finishStep, hp]

/-- Decomposition of a successful step into its branch part and its tail. -/
lemma stepCore_elim (env : Env) (cfg : OrchConfig) (s : OrchState)
    (st : TwinState) (sid : ℤ) (cid : String) (fuel : ℕ) (out : StepOut)
    (h : stepCore env cfg s st sid cid fuel = some out) :
    ∃ br, stepBranch env fuel s.qpu s.clock.next.2 st
        (s.extractor.update env.sqrtQ st).1
        (makeSla (riskClassify (s.extractor.update env.sqrtQ st).1))
        (FallbackManager.make
          (makeSla (riskClassify (s.extractor.update env.sqrtQ st).1)).max_queue_ms
          (makeSla (riskClassify (s.extractor.update env.sqrtQ st).1)).max_cost_eur)
        (decideRoute cfg s.bandit (s.extractor.update env.sqrtQ st).1
          (makeSla (riskClassify (s.extractor.update env.sqrtQ st).1))).1
        sid cid s.clock.next.1 = some br ∧
      out = finishStep env cfg (s.extractor.update env.sqrtQ st).2
        (decideRoute cfg s.bandit (s.extractor.update env.sqrtQ st).1
          (makeSla (riskClassify (s.extractor.update env.sqrtQ st).1))).2
        s.bandit_updates st (s.extractor.update env.sqrtQ st).1
        (makeSla (riskClassify (s.extractor.update env.sqrtQ st).1)) sid
        s.clock.next.1 br := by
  simp only [stepCore] at h
  rcases hbr : stepBranch env fuel s.qpu s.clock.next.2 st
      (s.extractor.update env.sqrtQ st).1
      (makeSla (riskClassify (s.extractor.update env.sqrtQ st).1))
      (FallbackManager.make
        (makeSla (riskClassify (s.extractor.update env.sqrtQ st).1)).max_queue_ms
        (makeSla (riskClassify (s.extractor.update env.sqrtQ st).1)).max_cost_eur)
      (decideRoute cfg s.bandit (s.extractor.update env.sqrtQ st).1
        (makeSla (riskClassify (s.extractor.update env.sqrtQ st).1))).1
      sid cid s.clock.next.1 with _ | br
  · rw [hbr] at h; exact absurd h (by simp)
  · rw [hbr] at h
    injection h with h
    exact ⟨br, rfl, h.symm⟩

/-! ## Claim theorems -/

/-- C1 counterexample: a step whose intended route is CLASSICAL but whose
elapsed time breaches the SLA deadline (clock jumps 30 s) emits a record
with route CLASSICAL and the non-empty fallback reason list
["SLA_BREACH"], refuting `fallback_reasons ≠ [] ↔ route = FALLBACK_CLASSICAL`. -/
theorem C1_counterexample :
    (stepCore envZ cfgRule stateSlow stC 1 "c1" 5).map
      (fun o => decide (o.record.route = Route.CLASSICAL ∧
        o.record.fallback_reasons ≠ [])) = some true := by
  with_unfolding_all decide

/-- C1 (amended): for every executed step, the emitted record's
fallback_reasons list is non-empty iff the route is FALLBACK_CLASSICAL or
the step breached the latency deadline (an SLA_BREACH reason is recorded
even when the route stays CLASSICAL); and a record with route QUANTUM
always has an empty fallback_reasons list (and no latency breach, since a
breach downgrades a QUANTUM route). -/
theorem C1_fallback_reasons_iff (env : Env) (cfg : OrchConfig) (s : OrchState)
    (st : TwinState) (sid : ℤ) (cid : String) (fuel : ℕ) (out : StepOut)
    (h : stepCore env cfg s st sid cid fuel = some out) :
    (out.record.fallback_reasons ≠ [] ↔
      (out.record.route = .FALLBACK_CLASSICAL ∨
       out.record.latency_breach = true)) ∧
    (out.record.route = .QUANTUM →
      out.record.fallback_reasons = [] ∧
      out.record.latency_breach = false) := by
  obtain ⟨br, hbr, hout⟩ := stepCore_elim env cfg s st sid cid fuel out h
  have hinv := stepBranch_inv _ _ _ _ _ _ _ _ _ _ _ _ _ hbr
  have h1 : out.record.fallback_reasons ≠ [] ↔
      (out.record.route = .FALLBACK_CLASSICAL ∨
       out.record.latency_breach = true) := by
    rw [hout]
    exact finishStep_reasons _ _ _ _ _ _ _ _ _ _ _ hinv.1
  refine ⟨h1, fun hq => ?_⟩
  have hbf : out.record.latency_breach = false := by
    have hq2 := hq
    rw [hout] at hq2 ⊢
    exact (finishStep_route_quantum _ _ _ _ _ _ _ _ _ _ _ hq2).2
  refine ⟨?_, hbf⟩
  by_contra hne
  rcases h1.mp hne with hf | hb
  · rw [hf] at hq
    exact absurd hq (by simp)
  · rw [hb] at hbf
    exact absurd hbf (by simp)

/-- C1 witness: the amended statement instantiated on a concrete fast
classical step (no fallback, no breach, empty reasons) and on a concrete
step whose record has route QUANTUM (empty reasons, no breach). -/
theorem C1_fallback_reasons_iff_witness :
    (stepCore envZ cfgRule stateFast stC 1 "w1" 5).isSome = true ∧
    (stepCore envZ cfgRule stateFast stC 1 "w1" 5).elim True (fun out =>
      (out.record.fallback_reasons ≠ [] ↔
        (out.record.route = .FALLBACK_CLASSICAL ∨
         out.record.latency_breach = true)) ∧
      (out.record.route = .QUANTUM →
        out.record.fallback_reasons = [] ∧
        out.record.latency_breach = false)) ∧
    (stepCore envZ cfgRule stateQ stQ 1 "w1q" 5).map
      (fun o => o.record.route) = some .QUANTUM ∧
    (stepCore envZ cfgRule stateQ stQ 1 "w1q" 5).elim True (fun out =>
      out.record.route = .QUANTUM →
        out.record.fallback_reasons = [] ∧
        out.record.latency_breach = false) := by
  refine ⟨by with_unfolding_all decide, ?_, by with_unfolding_all decide, ?_⟩
  · rcases hs : stepCore envZ cfgRule stateFast stC 1 "w1" 5 with _ | out
    · exact trivial
    · exact C1_fallback_reasons_iff envZ cfgRule stateFast stC 1 "w1" 5 out hs
  · rcases hs : stepCore envZ cfgRule stateQ stQ 1 "w1q" 5 with _ | out
    · exact trivial
    · exact (C1_fallback_reasons_iff envZ cfgRule stateQ stQ 1 "w1q" 5
        out hs).2

/-- C2 (confirmed): a record with route QUANTUM carries a non-null
serialized result, and the underlying QuantumResult has status SUCCEEDED,
passed the validator, holds a decoded decision with damp in [0, 5], and
holds an objective value. -/
theorem C2_quantum_route_validated (env : Env) (cfg : OrchConfig)
    (s : OrchState) (st : TwinState) (sid : ℤ) (cid : String) (fuel : ℕ)
    (out : StepOut) (h : stepCore env cfg s st sid cid fuel = some out)
    (hq : out.record.route = .QUANTUM) :
    out.record.result_json.isSome = true ∧
    ∃ qr, out.qrOpt = some qr ∧
      out.record.result_json = some (env.dumpResult qr) ∧
      qr.status = .SUCCEEDED ∧ (ResultValidator.validate qr).1 = true ∧
      ∃ d, qr.solution.decoded_decision = some d ∧
        ∃ v, d.damp = some v ∧ 0 ≤ v ∧ v ≤ 5 ∧
          qr.solution.objective_value.isSome = true := by
  obtain ⟨br, hbr, hout⟩ := stepCore_elim env cfg s st sid cid fuel out h
  have hinv := stepBranch_inv _ _ _ _ _ _ _ _ _ _ _ _ _ hbr
  rw [hout] at hq
  have hpre := (finishStep_route_quantum _ _ _ _ _ _ _ _ _ _ _ hq).1
  obtain ⟨_, qr, hqr, hvalid⟩ := hinv.2.1 hpre
  have hjson := (hinv.2.2.1 qr hqr).1
  obtain ⟨hstat, d, hd, v, hv, hv0, hv5, hobj⟩ := validate_true qr hvalid
  rw [hout]
  rw [finishStep_result_json, finishStep_qrOpt]
  refine ⟨by rw [hjson]; rfl, qr, hqr, hjson, hstat, hvalid, d, hd, v, hv,
    hv0, hv5, hobj⟩

/-- C2 witness: a concrete step (deadline-cancelled but fetched-ready
quantum attempt) whose record has route QUANTUM, with the validated
SUCCEEDED result. -/
theorem C2_quantum_route_validated_witness :
    (stepCore envZ cfgRule stateQ stQ 1 "cq" 5).map
      (fun o => o.record.route) = some .QUANTUM ∧
    (stepCore envZ cfgRule stateQ stQ 1 "cq" 5).elim True (fun out =>
      out.record.result_json.isSome = true ∧
      ∃ qr, out.qrOpt = some qr ∧ qr.status = .SUCCEEDED ∧
        (ResultValidator.validate qr).1 = true) := by
  have hmap : (stepCore envZ cfgRule stateQ stQ 1 "cq" 5).map
      (fun o => o.record.route) = some .QUANTUM := by
    with_unfolding_all decide
  refine ⟨hmap, ?_⟩
  rcases hs : stepCore envZ cfgRule stateQ stQ 1 "cq" 5 with _ | out
  · exact trivial
  · rw [hs] at hmap
    simp only [Option.map, Option.some.injEq] at hmap
    have h2 := C2_quantum_route_validated envZ cfgRule stateQ stQ 1 "cq" 5
      out hs hmap
    obtain ⟨hj, qr, hqr, hjson, hstat, hvalid, _⟩ := h2
    exact ⟨hj, qr, hqr, hstat, hvalid⟩

/-- C4 counterexample: a quantum attempt whose polling loop exits through
the 90%-of-deadline cancellation branch (viaDeadline = true) nevertheless
has its result fetched from the gateway afterwards; here the job is ready
by then, the freshly sampled result is SUCCEEDED, and the record even
adopts route QUANTUM — the recorded outcome is not CANCELLED. -/
theorem C4_counterexample :
    (stepCore envZ cfgRule stateQ stQ 1 "c4" 5).map
      (fun o => (o.viaDeadline, o.record.route,
        o.qrOpt.map (fun qr => qr.status))) =
    some (true, Route.QUANTUM, some JobStatus.SUCCEEDED) := by
  with_unfolding_all decide

/-- C4 (amended): once elapsed time exceeds 90% of the deadline the loop
exits with a locally synthesized CANCELLED on the handle, but the
orchestrator still calls the gateway's get_result on that handle; the
recorded quantum outcome is whatever that call returns — PENDING before
readiness or a freshly sampled SUCCEEDED/FAILED after — never CANCELLED. -/
theorem C4_deadline_cancel_refetches (env : Env) (cfg : OrchConfig)
    (s : OrchState) (st : TwinState) (sid : ℤ) (cid : String) (fuel : ℕ)
    (out : StepOut) (h : stepCore env cfg s st sid cid fuel = some out)
    (hv : out.viaDeadline = true) :
    ∃ qr, out.qrOpt = some qr ∧
      out.record.result_json = some (env.dumpResult qr) ∧
      qr.status ≠ .CANCELLED := by
  obtain ⟨br, hbr, hout⟩ := stepCore_elim env cfg s st sid cid fuel out h
  have hinv := stepBranch_inv _ _ _ _ _ _ _ _ _ _ _ _ _ hbr
  rw [hout] at hv
  rw [finishStep_viaDeadline] at hv
  have hsome := hinv.2.2.2 hv
  rcases hqr : br.qrOpt with _ | qr
  · rw [hqr] at hsome; simp at hsome
  · have h3 := hinv.2.2.1 qr hqr
    rw [hout, finishStep_qrOpt, finishStep_result_json]
    exact ⟨qr, hqr, h3.1, h3.2⟩

/-- C4 witness: the amended statement instantiated on a concrete
deadline-cancelled attempt. -/
theorem C4_deadline_cancel_refetches_witness :
    (stepCore envZ cfgRule stateQ stQ 1 "w4" 5).map
      (fun o => o.viaDeadline) = some true ∧
    (stepCore envZ cfgRule stateQ stQ 1 "w4" 5).elim True (fun out =>
      ∃ qr, out.qrOpt = some qr ∧
        out.record.result_json = some (envZ.dumpResult qr) ∧
        qr.status ≠ .CANCELLED) := by
  have hmap : (stepCore envZ cfgRule stateQ stQ 1 "w4" 5).map
      (fun o => o.viaDeadline) = some true := by
    with_unfolding_all decide
  refine ⟨hmap, ?_⟩
  rcases hs : stepCore envZ cfgRule stateQ stQ 1 "w4" 5 with _ | out
  · exact trivial
  · rw [hs] at hmap
    simp only [Option.map, Option.some.injEq] at hmap
    exact C4_deadline_cancel_refetches envZ cfgRule stateQ stQ 1 "w4" 5
      out hs hmap

/-- C3: the code does not freeze a terminal outcome.  On a handle already
past readiness, the first get_result call returns SUCCEEDED (and stores
SUCCEEDED on the handle), yet the second call on the very same handle
re-samples the failure draw and returns FAILED with an empty solution —
the terminal outcome of the first call is not frozen. -/
theorem C3_get_result_not_frozen :
    grFirst.qr.status = .SUCCEEDED ∧ grFirst.handle.status = .SUCCEEDED ∧
    grSecond.qr.status = .FAILED ∧
    grSecond.qr.solution ≠ grFirst.qr.solution := by
  with_unfolding_all decide

/-- C5 (confirmed): on a handle whose stored status is not terminal, poll
returns only PENDING or RUNNING and stores only PENDING or RUNNING (even
past ready_ts), and consequently the orchestrator's polling loop can exit
only through the 90%-of-deadline cancellation branch, never by observing a
terminal status from poll. -/
theorem C5_poll_never_terminal (clock : Clock) (handle : JobHandle)
    (h1 : handle.status ≠ .SUCCEEDED) (h2 : handle.status ≠ .FAILED)
    (h3 : handle.status ≠ .CANCELLED) :
    ((SimulatedCloudQPU.poll clock handle).1 = .PENDING ∨
     (SimulatedCloudQPU.poll clock handle).1 = .RUNNING) ∧
    ((SimulatedCloudQPU.poll clock handle).2.1.status = .PENDING ∨
     (SimulatedCloudQPU.poll clock handle).2.1.status = .RUNNING) ∧
    (∀ fuel t0 dl out, pollLoop fuel clock handle t0 dl = some out →
      out.2.2.2 = true ∧ out.1 = .CANCELLED) := by
  have hp := poll_nonterminal clock handle h1 h2 h3
  refine ⟨hp.1, ?_, ?_⟩
  · rw [hp.2]; exact hp.1
  · intro fuel t0 dl out he
    have hd := pollLoop_deadline fuel clock handle t0 dl out h1 h2 h3 he
    exact ⟨hd.1, hd.2.1⟩

/-- A clock under which the loop's first deadline check already fires. -/
def clockW : Clock := { vals := fun n => if n = 0 then 0 else 100, idx := 0 }

/-- C5 witness: the polling claims instantiated on a concrete PENDING
handle; the loop exits with a deadline cancellation. -/
theorem C5_poll_never_terminal_witness :
    ((SimulatedCloudQPU.poll clockW handleP).1 = .PENDING ∨
     (SimulatedCloudQPU.poll clockW handleP).1 = .RUNNING) ∧
    (pollLoop 2 clockW handleP 0 20000).elim True (fun out =>
      out.2.2.2 = true ∧ out.1 = .CANCELLED) := by
  have h := C5_poll_never_terminal clockW handleP
    (by with_unfolding_all decide) (by with_unfolding_all decide)
    (by with_unfolding_all decide)
  refine ⟨h.1, ?_⟩
  rcases hs : pollLoop 2 clockW handleP 0 20000 with _ | out
  · exact trivial
  · exact h.2.2 2 0 20000 out hs

/-- C6 (confirmed): a get_result call before readiness returns a PENDING
result with an empty solution and an explanatory error, and mutates
nothing (neither the handle — in particular its status — nor the gateway
generator). -/
theorem C6_get_result_before_ready (qpu : SimulatedCloudQPU) (clock : Clock)
    (handle : JobHandle) (h : clock.next.1 < handle.ready_ts) :
    (SimulatedCloudQPU.get_result qpu clock handle).qr.status = .PENDING ∧
    (SimulatedCloudQPU.get_result qpu clock handle).qr.solution =
      Solution.empty ∧
    (SimulatedCloudQPU.get_result qpu clock handle).qr.error =
      some "Result requested before ready" ∧
    (SimulatedCloudQPU.get_result qpu clock handle).handle = handle ∧
    (SimulatedCloudQPU.get_result qpu clock handle).qpu = qpu := by
  simp only [SimulatedCloudQPU.get_result]
  rw [if_pos h]
  exact ⟨rfl, rfl, rfl, rfl, rfl⟩

/-- A clock stuck at time 0, before `handleP`'s readiness at 1 s. -/
def clockEarly : Clock := { vals := fun _ => 0, idx := 0 }

/-- C6 witness: the before-readiness contract instantiated on a concrete
early query. -/
theorem C6_get_result_before_ready_witness :
    (SimulatedCloudQPU.get_result { rng := rngD, job_counter := 0 } clockEarly
      handleP).qr.status = .PENDING ∧
    (SimulatedCloudQPU.get_result { rng := rngD, job_counter := 0 } clockEarly
      handleP).qr.solution = Solution.empty ∧
    (SimulatedCloudQPU.get_result { rng := rngD, job_counter := 0 } clockEarly
      handleP).handle = handleP := by
  have h := C6_get_result_before_ready { rng := rngD, job_counter := 0 }
    clockEarly handleP (by with_unfolding_all decide)
  exact ⟨h.1, h.2.1, h.2.2.2.1⟩

/-- C8 (confirmed): under a CRITICAL SLA, decide_route returns CLASSICAL
for every feature map, every SLA parameterisation, every policy selection
and every bandit state (in particular every exploration draw): both
policies gate on CRITICAL before consuming any randomness. -/
theorem C8_critical_forces_classical (cfg : OrchConfig)
    (banditOpt : Option ContextualBanditPolicy) (features : Features)
    (d mq : ℤ) (mc : ℚ) :
    (decideRoute cfg banditOpt features
      { deadline_ms := d, max_queue_ms := mq, max_cost_eur := mc,
        risk_class := .CRITICAL }).1 = .CLASSICAL := by
  unfold decideRoute
  by_cases hp : cfg.policy_name = "bandit"
  · rw [if_pos hp]
    rcases banditOpt with _ | bd
    · simp [SimpleRulePolicy.choose]
    · simp [ContextualBanditPolicy.choose]
  · rw [if_neg hp]
    simp [SimpleRulePolicy.choose]

/-- The fallback reason list decomposed as one block per trigger. -/
lemma should_fallback_reasons_eq (m : FallbackManager) (status : JobStatus)
    (q : Option ℤ) (c n : Option ℚ) :
    (m.should_fallback status q c n).2 =
      (if status = .FAILED ∨ status = .CANCELLED then ["JOB_FAILED"] else []) ++
      ((match q with
        | some qv => if m.max_queue_ms < qv then ["QUEUE_TIMEOUT"] else []
        | none => []) ++
       ((match c with
         | some cv => if m.max_cost_eur < cv then ["COST_BREACH"] else []
         | none => []) ++
        (match n with
         | some nv => if m.max_noise < nv then ["NOISE_TOO_HIGH"] else []
         | none => []))) := by
  simp only [FallbackManager.should_fallback]
  rcases q with _ | qv <;> rcases c with _ | cv <;> rcases n with _ | nv <;>
    split_ifs <;> try simp
  all_goals split_ifs <;> simp

/-- Membership in a conditional singleton block. -/
lemma mem_ite_singleton (s x : String) (P : Prop) [Decidable P] :
    (s ∈ if P then [x] else ([] : List String)) ↔ (s = x ∧ P) := by
  split_ifs with h <;> simp [h]

/-- C7 (confirmed): each fallback reason appears independently and exactly
under its own trigger — the job-failure reason (the single literal
"JOB_FAILED", emitted for both FAILED and CANCELLED) iff the status is a
terminal failure, QUEUE_TIMEOUT iff a present queue time exceeds
max_queue_ms, COST_BREACH iff a present cost exceeds max_cost_eur,
NOISE_TOO_HIGH iff a present noise exceeds the default ceiling 0.15 — and
the fallback flag is set exactly when the reason list is non-empty. -/
theorem C7_should_fallback_characterisation (mq : ℤ) (mc : ℚ)
    (status : JobStatus) (q : Option ℤ) (c n : Option ℚ) :
    (("JOB_FAILED" ∈ ((FallbackManager.make mq mc).should_fallback status q c
        n).2) ↔ (status = .FAILED ∨ status = .CANCELLED)) ∧
    (("QUEUE_TIMEOUT" ∈ ((FallbackManager.make mq mc).should_fallback status q
        c n).2) ↔ ∃ qv, q = some qv ∧ mq < qv) ∧
    (("COST_BREACH" ∈ ((FallbackManager.make mq mc).should_fallback status q c
        n).2) ↔ ∃ cv, c = some cv ∧ mc < cv) ∧
    (("NOISE_TOO_HIGH" ∈ ((FallbackManager.make mq mc).should_fallback status
        q c n).2) ↔ ∃ nv, n = some nv ∧ 15/100 < nv) ∧
    ((((FallbackManager.make mq mc).should_fallback status q c n).1 = true) ↔
      ((FallbackManager.make mq mc).should_fallback status q c n).2 ≠ []) := by
  have hqt : ¬(("JOB_FAILED" : String) = "QUEUE_TIMEOUT") := by decide
  have hcb : ¬(("JOB_FAILED" : String) = "COST_BREACH") := by decide
  have hnth : ¬(("JOB_FAILED" : String) = "NOISE_TOO_HIGH") := by decide
  have hq1 : ¬(("QUEUE_TIMEOUT" : String) = "JOB_FAILED") := by decide
  have hq2 : ¬(("QUEUE_TIMEOUT" : String) = "COST_BREACH") := by decide
  have hq3 : ¬(("QUEUE_TIMEOUT" : String) = "NOISE_TOO_HIGH") := by decide
  have hc1 : ¬(("COST_BREACH" : String) = "JOB_FAILED") := by decide
  have hc2 : ¬(("COST_BREACH" : String) = "QUEUE_TIMEOUT") := by decide
  have hc3 : ¬(("COST_BREACH" : String) = "NOISE_TOO_HIGH") := by decide
  have hn1 : ¬(("NOISE_TOO_HIGH" : String) = "JOB_FAILED") := by decide
  have hn2 : ¬(("NOISE_TOO_HIGH" : String) = "QUEUE_TIMEOUT") := by decide
  have hn3 : ¬(("NOISE_TOO_HIGH" : String) = "COST_BREACH") := by decide
  refine ⟨?_, ?_, ?_, ?_, should_fallback_flag _ _ _ _ _⟩ <;>
    · rw [should_fallback_reasons_eq]
      rcases q with _ | qv <;> rcases c with _ | cv <;> rcases n with _ | nv <;>
        simp [mem_ite_singleton, FallbackManager.make, hqt, hcb, hnth,
          hq1, hq2, hq3, hc1, hc2, hc3, hn1, hn2, hn3]

/-- C9 counterexample: two runs of the rule-policy orchestrator with
identical seeds (draw streams), identical configuration and identical
telemetry, differing only in the observed wall-clock stream, produce
different ExecRecord histories (exec_ms, latency_breach and
fallback_reasons diverge) — they are not bit-identical. -/
theorem C9_counterexample :
    (runSteps envZ cfgRule 5 "c9" [("t", telC)] coreT stateFast 0).map
      (fun r => r.1.history) ≠
    (runSteps envZ cfgRule 5 "c9" [("t", telC)] coreT
      { stateFast with clock := clockSlow } 0).map (fun r => r.1.history) := by
  with_unfolding_all decide

/-- C9 (amended): determinism holds relative to the timing oracle — two
runs with identical seeds (draw streams), constructor parameters,
telemetry sequence AND identical wall-clock observations produce identical
results, histories included; the run is a pure function of those inputs. -/
theorem C9_run_deterministic (env : Env) (cfg : OrchConfig) (fuel : ℕ)
    (cid : String) (tels : List (String × Telemetry)) (core : TwinCORE)
    (s1 s2 : OrchState) (sid : ℤ) (h : s1 = s2) :
    runSteps env cfg fuel cid tels core s1 sid =
      runSteps env cfg fuel cid tels core s2 sid := by
  rw [h]

/-- C9 witness: the conditional determinism statement instantiated on a
concrete one-step run. -/
theorem C9_run_deterministic_witness :
    runSteps envZ cfgRule 5 "w9" [("t", telC)] coreT stateFast 0 =
      runSteps envZ cfgRule 5 "w9" [("t", telC)] coreT stateFast 0 :=
  C9_run_deterministic envZ cfgRule 5 "w9" [("t", telC)] coreT stateFast
    stateFast 0 rfl

/-- When the bandit policy is active, decide_route threads a bandit
instance through. -/
lemma decideRoute_bandit_some (cfg : OrchConfig)
    (banditOpt : Option ContextualBanditPolicy) (features : Features)
    (sla : SLA) (hp : cfg.policy_name = "bandit")
    (hb : banditOpt.isSome = true) :
    (decideRoute cfg banditOpt features sla).2.isSome = true := by
  unfold decideRoute
  rw [if_pos hp]
  rcases banditOpt with _ | bd
  · simp at hb
  · simp

/-- A bandit-policy step performs exactly one bandit update, keeps a bandit
instance, and realizes the reward `objective − 0.0008·elapsed_ms − 0.2·[fell
back]`. -/
lemma stepCore_bandit_once (env : Env) (cfg : OrchConfig) (s : OrchState)
    (st : TwinState) (sid : ℤ) (cid : String) (fuel : ℕ) (out : StepOut)
    (hp : cfg.policy_name = "bandit") (hb : s.bandit.isSome = true)
    (h : stepCore env cfg s st sid cid fuel = some out) :
    out.state.bandit_updates = s.bandit_updates + 1 ∧
    out.state.bandit.isSome = true ∧
    out.rewardOpt = some (out.objVal - (8/10000) * (out.elapsedMs : ℚ) -
      (if out.record.route = .FALLBACK_CLASSICAL then 2/10 else 0)) := by
  obtain ⟨br, hbr, hout⟩ := stepCore_elim env cfg s st sid cid fuel out h
  have hd := decideRoute_bandit_some cfg s.bandit
    (s.extractor.update env.sqrtQ st).1
    (makeSla (riskClassify (s.extractor.update env.sqrtQ st).1)) hp hb
  rw [hout]
  exact finishStep_bandit env cfg (s.extractor.update env.sqrtQ st).2
    (decideRoute cfg s.bandit (s.extractor.update env.sqrtQ st).1
      (makeSla (riskClassify (s.extractor.update env.sqrtQ st).1))).2
    s.bandit_updates st (s.extractor.update env.sqrtQ st).1
    (makeSla (riskClassify (s.extractor.update env.sqrtQ st).1)) sid
    s.clock.next.1 br hp hd

/-- A bandit-policy run of N steps performs exactly N bandit updates. -/
lemma runSteps_bandit_count (env : Env) (cfg : OrchConfig) (fuel : ℕ)
    (cid : String) :
    ∀ (tels : List (String × Telemetry)) (core : TwinCORE) (s : OrchState)
      (sid : ℤ) (res : TwinCORE × OrchState × ℤ),
      cfg.policy_name = "bandit" → s.bandit.isSome = true →
      runSteps env cfg fuel cid tels core s sid = some res →
      res.2.1.bandit_updates = s.bandit_updates + tels.length := by
  intro tels
  induction tels with
  | nil =>
    intro core s sid res hp hb h
    simp only [runSteps] at h
    injection h with h
    rw [← h]
    simp
  | cons head rest ih =>
    intro core s sid res hp hb h
    rcases head with ⟨tid, tel⟩
    simp only [runSteps] at h
    split at h
    · exact absurd h (by simp)
    · rename_i pr hu
      split at h
      · exact absurd h (by simp)
      · rename_i out hsc
        have hstep := stepCore_bandit_once env cfg s pr.1 (sid + 1) cid fuel
          out hp hb hsc
        split at h
        · exact absurd h (by simp)
        · rename_i pr2 ha
          have hrec := ih (pr2.2.append_record out.record) out.state (sid + 1)
            res hp hstep.2.1 h
          rw [hrec, hstep.1]
          simp only [List.length_cons]
          omega

/-- C10 (confirmed): with the bandit policy active, every executed step
updates the bandit exactly once, using that step's realized reward
`objective − 0.0008·elapsed_ms` minus a further 0.2 when the final route is
FALLBACK_CLASSICAL; consequently a run of N sequential steps updates the
bandit exactly N times, never more, never less. -/
theorem C10_bandit_updated_once_per_step :
    (∀ (env : Env) (cfg : OrchConfig) (s : OrchState) (st : TwinState)
      (sid : ℤ) (cid : String) (fuel : ℕ) (out : StepOut),
      cfg.policy_name = "bandit" → s.bandit.isSome = true →
      stepCore env cfg s st sid cid fuel = some out →
      out.state.bandit_updates = s.bandit_updates + 1 ∧
      out.rewardOpt = some (out.objVal - (8/10000) * (out.elapsedMs : ℚ) -
        (if out.record.route = .FALLBACK_CLASSICAL then 2/10 else 0))) ∧
    (∀ (env : Env) (cfg : OrchConfig) (fuel : ℕ) (cid : String)
      (tels : List (String × Telemetry)) (core : TwinCORE) (s : OrchState)
      (sid : ℤ) (res : TwinCORE × OrchState × ℤ),
      cfg.policy_name = "bandit" → s.bandit.isSome = true →
      runSteps env cfg fuel cid tels core s sid = some res →
      res.2.1.bandit_updates = s.bandit_updates + tels.length) := by
  constructor
  · intro env cfg s st sid cid fuel out hp hb h
    have hstep := stepCore_bandit_once env cfg s st sid cid fuel out hp hb h
    exact ⟨hstep.1, hstep.2.2⟩
  · intro env cfg fuel cid tels core s sid res hp hb h
    exact runSteps_bandit_count env cfg fuel cid tels core s sid res hp hb h

/-- C10 witness: a concrete one-step bandit run performs exactly one
update (both the per-step and the whole-run counts instantiate to 1). -/
theorem C10_bandit_updated_once_per_step_witness :
    (stepCore envZ cfgBandit stateBandit stC 1 "w10" 5).map
      (fun o => o.state.bandit_updates) = some 1 ∧
    (runSteps envZ cfgBandit 5 "w10" [("t", telC)] coreT stateBandit 0).map
      (fun r => r.2.1.bandit_updates) = some 1 := by
  constructor
  · rcases hs : stepCore envZ cfgBandit stateBandit stC 1 "w10" 5 with _ | out
    · have hiss : (stepCore envZ cfgBandit stateBandit stC 1 "w10" 5).isSome
          = true := by with_unfolding_all decide
      rw [hs] at hiss; simp at hiss
    · have h := C10_bandit_updated_once_per_step.1 envZ cfgBandit stateBandit
        stC 1 "w10" 5 out rfl rfl hs
      simp [h.1, stateBandit]
  · rcases hs : runSteps envZ cfgBandit 5 "w10" [("t", telC)] coreT
        stateBandit 0 with _ | res
    · have hiss : (runSteps envZ cfgBandit 5 "w10" [("t", telC)] coreT
          stateBandit 0).isSome = true := by with_unfolding_all decide
      rw [hs] at hiss; simp at hiss
    · have h := C10_bandit_updated_once_per_step.2 envZ cfgBandit 5 "w10"
        [("t", telC)] coreT stateBandit 0 res rfl rfl hs
      simp [h, stateBandit]
